import Mathlib

/-!
Verification of the data-preparation and aggregation pipeline shared by the
three dashboard variants (`src/main.py`, `src/sample1.py`, `src/Sample02.py`):
date parsing, derived-field computation (order month, delivery delay,
customer age), age bucketing, categorical filtering and grouped aggregation.
Pandas columns become Lean lists, nullable cells become `Option`, date
subtraction is modelled through the standard proleptic-Gregorian day count.
-/

/-- A calendar date, as produced by `pd.to_datetime`: year, month (1..12),
day (1..31). -/
structure Date where
  year : Int
  month : Nat
  day : Nat
deriving DecidableEq, Repr

/-- Day count of a civil date (proleptic Gregorian), the standard
days-from-civil formula.  Models the timestamp underlying a pandas datetime,
so that `deliveryDate - orderDate` in days is a difference of day counts.
All divisions run on non-negative operands for years ≥ 1, where every
integer-division convention agrees. -/
def Date.toDays (dt : Date) : Int :=
  let y : Int := if dt.month ≤ 2 then dt.year - 1 else dt.year
  let mp : Nat := if dt.month ≤ 2 then dt.month + 9 else dt.month - 3
  let doy : Int := ((153 * (mp : Int) + 2) / 5) + (dt.day : Int) - 1
  365 * y + y / 4 - y / 100 + y / 400 + doy

/-- Python tuple comparison `(a1, a2) < (b1, b2)`: lexicographic. -/
def tupleLt (a b : Nat × Nat) : Bool :=
  a.1 < b.1 || (a.1 == b.1 && a.2 < b.2)

/-- Function `calculate_age` of `src/main.py` lines 28-36 (identical in
`src/sample1.py` lines 28-36): `None` for a null birth date, otherwise
`today.year - born.year - ((today.month, today.day) < (born.month, born.day))`,
Python booleans counting as 0/1. -/
def calculate_age (today : Date) (born : Option Date) : Option Int :=
  match born with
  | none => none
  | some b =>
      some (today.year - b.year -
        (if tupleLt (today.month, today.day) (b.month, b.day) then 1 else 0))

/-- The `customer_age` lambda of `src/Sample02.py` line 44:
`datetime.now().year - dob.year if pd.notnull(dob) else None` — plain year
difference, no birthday adjustment. -/
def customer_age_s02 (today : Date) (dob : Option Date) : Option Int :=
  match dob with
  | none => none
  | some b => some (today.year - b.year)

/-- Column derivation `df['delivery_delay'] = (df['deliveryDate'] - df['orderDate']).dt.days`
(`src/main.py` line 25, `src/Sample02.py` line 43): NaT on either side gives
NaN (here `none`), otherwise the signed day difference. -/
def delivery_delay (order delivery : Option Date) : Option Int :=
  match order, delivery with
  | some o, some d => some (d.toDays - o.toDays)
  | _, _ => none

/-- Variant `src/sample1.py` lines 24-25: the same day difference, but then
`df['delivery_delay'].fillna('Unknown')` replaces every null by the string
`'Unknown'`; the resulting column holds either an integer day count
(`Sum.inl`) or that sentinel string (`Sum.inr`) and is never null. -/
def delivery_delay_s1 (order delivery : Option Date) : Option (Int ⊕ String) :=
  match delivery_delay order delivery with
  | some n => some (Sum.inl n)
  | none => some (Sum.inr ("Unknown"))

/-- Binning `pd.cut(df_filtered['customer_age'].fillna(-1), bins=[-1,0,30,45,60,100],
labels=['Unknown','18-30','31-45','46-60','60+'], right=False)`
(`src/main.py` lines 185-190, `src/sample1.py` lines 191-196).
With `right=False` the intervals are left-closed right-open:
[-1,0) ↦ Unknown, [0,30) ↦ 18-30, [30,45) ↦ 31-45, [45,60) ↦ 46-60,
[60,100) ↦ 60+; values outside every bin get NaN (`none`). -/
def age_group (customer_age : Option Int) : Option String :=
  let x : Int := customer_age.getD (-1)
  if -1 ≤ x ∧ x < 0 then some ("Unknown")
  else if 0 ≤ x ∧ x < 30 then some ("18-30")
  else if 30 ≤ x ∧ x < 45 then some ("31-45")
  else if 45 ≤ x ∧ x < 60 then some ("46-60")
  else if 60 ≤ x ∧ x < 100 then some ("60+")
  else none

/-- Split a character list on `'-'`, the separator of both date formats. -/
def splitDashAux : List Char → List Char → List (List Char)
  | [], acc => [acc.reverse]
  | c :: cs, acc =>
      if c = '-' then acc.reverse :: splitDashAux cs []
      else splitDashAux cs (c :: acc)

/-- Split a raw date cell on `'-'`. -/
def splitDash (s : List Char) : List (List Char) := splitDashAux s []

/-- Numeric value of a non-empty all-digit field; `none` otherwise, as
`strptime` rejects a field with any non-digit character. -/
def digits? (s : List Char) : Option Nat :=
  if s ≠ [] ∧ s.all Char.isDigit then
    some (s.foldl (fun n c => n * 10 + (c.toNat - 48)) 0)
  else none

/-- Gregorian leap-year rule, as in Python's `datetime` validation. -/
def isLeap (y : Int) : Bool :=
  y % 4 == 0 && (y % 100 != 0 || y % 400 == 0)

/-- Number of days in a month, for date validation. -/
def daysInMonth (y : Int) (m : Nat) : Nat :=
  if m = 2 then (if isLeap y then 29 else 28)
  else if m = 4 ∨ m = 6 ∨ m = 9 ∨ m = 11 then 30
  else 31

/-- Build a date from numeric fields, validating ranges the way `strptime`
does; out-of-range fields make the whole parse fail. -/
def mkDate? (y m d : Nat) : Option Date :=
  if 1 ≤ m ∧ m ≤ 12 ∧ 1 ≤ d ∧ d ≤ daysInMonth (y : Int) m then
    some ⟨(y : Int), m, d⟩
  else none

/-- Parse `pd.to_datetime(s, format='%d-%m-%Y', errors='coerce')` on one cell:
day-month-year with `-` separators; anything else coerces to NaT (`none`). -/
def parseDMY (s : List Char) : Option Date :=
  match splitDash s with
  | [ds, ms, ys] => do
      let d ← digits? ds
      let m ← digits? ms
      let y ← digits? ys
      mkDate? y m d
  | _ => none

/-- Parse `pd.to_datetime(s, format='%Y-%m-%d', errors='coerce')` on one cell:
year-month-day with `-` separators; anything else coerces to NaT (`none`). -/
def parseYMD (s : List Char) : Option Date :=
  match splitDash s with
  | [ys, ms, ds] => do
      let y ← digits? ys
      let m ← digits? ms
      let d ← digits? ds
      mkDate? y m d
  | _ => none

/-- Parse `pd.to_datetime(s, errors='coerce')` with no fixed format
(`dateOfBirth`, `src/main.py` line 20): pandas infers the format; modelled
as accepting either of the two layouts seen in this dataset. -/
def parseFree (s : List Char) : Option Date :=
  (parseYMD s).orElse (fun _ => parseDMY s)

/-- Variant `src/sample1.py` lines 17-21 applied to `deliveryDate`: the loop first
runs `to_datetime(raw, format='%d-%m-%Y', errors='coerce')` over the raw
strings, and only then re-runs `to_datetime(..., format='%Y-%m-%d')` on the
resulting datetime column — which passes already-converted values (and NaT)
through unchanged.  Net effect: `deliveryDate` is parsed as day-month-year. -/
def parse_deliveryDate_s1 (cell : Option (List Char)) : Option Date :=
  cell.bind parseDMY


/-- One raw CSV row as `pd.read_csv` delivers it: date cells are raw
strings (or missing), categorical cells are strings (or missing, NaN),
numeric cells are already-typed values. -/
structure RawRow where
  orderDate : Option (List Char)
  deliveryDate : Option (List Char)
  dateOfBirth : Option (List Char)
  creationDate : Option (List Char)
  itemID : Nat
  manufacturerID : Nat
  color : Option String
  size : Option String
  state : Option String
  price : ℚ
  returnShipment : ℚ
deriving DecidableEq

/-- The parsed CSV: the header (column names actually present in the file)
and the data rows. -/
structure RawTable where
  cols : List String
  rows : List RawRow
deriving DecidableEq

/-- One fully loaded order record with the derived fields of
`src/main.py` `load_data`; `order_year_month` is the year-month pair behind
the `'%Y-%m'` period string. -/
structure OrderRecord where
  orderDate : Option Date
  deliveryDate : Option Date
  dateOfBirth : Option Date
  creationDate : Option Date
  itemID : Nat
  manufacturerID : Nat
  color : String
  size : String
  state : String
  price : ℚ
  returnShipment : ℚ
  order_year_month : Option (Int × Nat)
  delivery_delay : Option Int
  customer_age : Option Int
deriving DecidableEq

/-- Loader body, `src/main.py` lines 18-41 applied to one row: parse the four date
columns with their per-column formats coercing failures to null, derive
`order_year_month`, `delivery_delay` and `customer_age`, and fill missing
`color`/`size`/`state` with `'Unknown'`. -/
def parseRow (today : Date) (row : RawRow) : OrderRecord :=
  let od := row.orderDate.bind parseDMY
  let dd := row.deliveryDate.bind parseYMD
  let dob := row.dateOfBirth.bind parseFree
  let cd := row.creationDate.bind parseDMY
  { orderDate := od
    deliveryDate := dd
    dateOfBirth := dob
    creationDate := cd
    itemID := row.itemID
    manufacturerID := row.manufacturerID
    color := row.color.getD ("Unknown")
    size := row.size.getD ("Unknown")
    state := row.state.getD ("Unknown")
    price := row.price
    returnShipment := row.returnShipment
    order_year_month := od.map (fun d => (d.year, d.month))
    delivery_delay := delivery_delay od dd
    customer_age := calculate_age today dob }

/-- Modelled from the spec: the `DataLoadError` taxonomy of §7.  The code
has no class of that name; `src/main.py` realizes the fatal branch by
catching the exception of the `try` block (a missing/unreadable file raises
in `pd.read_csv`, a missing date column raises `KeyError` at
`df['orderDate']` etc.), displaying it, and returning `None` in place of a
dataframe. -/
inductive DataLoadError where
  | fileError
  | schemaError
deriving DecidableEq

/-- The columns `load_data` itself indexes (`src/main.py` lines 18-21);
their absence raises inside the `try` block and is therefore fatal.
(`fillna` with a dict ignores absent keys, so `color`/`size`/`state` do not
make the loader fail.) -/
def requiredCols : List String :=
  ["orderDate", "deliveryDate", "dateOfBirth", "creationDate"]

/-- Function `load_data` of `src/main.py` lines 12-46: a missing/unreadable file
(`none`) is fatal, a header lacking a column the loader indexes is fatal,
and otherwise every row is loaded with per-field coercion — a malformed
cell value becomes null in its field, never an exception. -/
def load_data (today : Date) (file : Option RawTable) :
    Except DataLoadError (List OrderRecord) :=
  match file with
  | none => .error .fileError
  | some t =>
      if requiredCols.all (fun c => decide (c ∈ t.cols)) then
        .ok (t.rows.map (parseRow today))
      else .error .schemaError

/-- The derived fields of one record, for determinism statements. -/
def derivedOf (r : OrderRecord) : Option (Int × Nat) × Option Int × Option Int :=
  (r.order_year_month, r.delivery_delay, r.customer_age)

/-- The sidebar filter of `src/main.py` lines 83-88: conjunction of four
`isin` membership tests over the selected states, months, colors, sizes. -/
def df_filtered (df : List OrderRecord) (states : List String)
    (months : List (Option (Int × Nat))) (colors sizes : List String) :
    List OrderRecord :=
  df.filter (fun r =>
    decide (r.state ∈ states) && decide (r.order_year_month ∈ months) &&
    decide (r.color ∈ colors) && decide (r.size ∈ sizes))

/-- The distinct group keys of `groupby('state')`: the states present in
the (filtered) data, each once. -/
def stateKeys (df : List OrderRecord) : List String :=
  (df.map (fun r => r.state)).dedup

/-- The rows of one `state` group. -/
def stateGroup (df : List OrderRecord) (k : String) : List OrderRecord :=
  df.filter (fun r => decide (r.state = k))

/-- Aggregation `df_filtered.groupby('state')['returnShipment'].mean() * 100`
(`src/main.py` line 170): one entry per state present in the data, holding
the group mean of the return flag times 100. -/
def return_rate_by_state (df : List OrderRecord) : List (String × ℚ) :=
  (stateKeys df).map (fun k =>
    (k, 100 * (((stateGroup df k).map (fun r => r.returnShipment)).sum /
      ((stateGroup df k).length : ℚ))))

/-- The row filter of `src/main.py` line 156:
`df_filtered['delivery_delay'] > 0` — NaN compares false, so only rows with
a present, strictly positive delay pass. -/
def posDelay (r : OrderRecord) : Bool :=
  match r.delivery_delay with
  | some n => decide (0 < n)
  | none => false

/-- The groupby key of `src/main.py` line 156: `orderDate.dt.month`,
NaN (`none`) for rows with no order date. -/
def monthKey (r : OrderRecord) : Option Nat :=
  r.orderDate.map (fun d => d.month)

/-- Aggregation `groupby(orderDate.dt.month)['delivery_delay'].mean()` over an
already-delay-filtered frame: group rows by order month (null month keys
are dropped by groupby) and average the present delays per group. -/
def meanDelayByMonth (pos : List OrderRecord) : List (Nat × ℚ) :=
  ((pos.filterMap monthKey).dedup).map (fun m =>
    let vals := (pos.filter (fun r => decide (monthKey r = some m))).filterMap
      (fun r => r.delivery_delay)
    (m, (vals.map (fun n => (n : ℚ))).sum / (vals.length : ℚ)))

/-- Aggregation `df_filtered[df_filtered['delivery_delay'] > 0]
.groupby(df_filtered['orderDate'].dt.month)['delivery_delay'].mean()`
(`src/main.py` line 156, likewise `src/Sample02.py` lines 106-108): keep
only rows with positive delay, then group and average. -/
def delivery_performance (df : List OrderRecord) : List (Nat × ℚ) :=
  meanDelayByMonth (df.filter posDelay)

/-- Counting `value_counts` of the `age_group` column (`src/main.py` line 192),
as the count of one label: `value_counts` drops null (uncut) values, so a
record whose age falls in no bin is counted under no label. -/
def age_distribution (df : List OrderRecord) (label : String) : Nat :=
  (df.filter (fun r => decide (age_group r.customer_age = some label))).length

/-- A concrete record with the given state and return flag, every other
field at its neutral value; used to instantiate the filter/aggregation
theorems on concrete data. -/
def mkRec (st : String) (ret : ℚ) : OrderRecord :=
  { orderDate := none, deliveryDate := none, dateOfBirth := none,
    creationDate := none, itemID := 0, manufacturerID := 0,
    color := "Unknown", size := "Unknown", state := st, price := 0,
    returnShipment := ret, order_year_month := none, delivery_delay := none,
    customer_age := none }

/-- A concrete record with the given customer age. -/
def mkRecAge (a : Option Int) : OrderRecord :=
  { mkRec ("DE") 0 with customer_age := a }

/-- A concrete record with the given delivery delay. -/
def mkRecDelay (d : Option Int) : OrderRecord :=
  { mkRec ("DE") 0 with delivery_delay := d }

/-- A concrete raw row whose `orderDate` cell is the malformed string
`'99-99-2024'`. -/
def badRow : RawRow :=
  { orderDate := some ("99-99-2024").data, deliveryDate := none,
    dateOfBirth := none, creationDate := none, itemID := 0,
    manufacturerID := 0, color := none, size := none, state := none,
    price := 0, returnShipment := 0 }


/-- C1 counterexample: with `right=False` the cut intervals are left-closed
right-open, so the boundary age 30 lands in the upper bucket "31-45", not
in "18-30" as the claim states. -/
theorem C1_boundary_counterexample :
    age_group (some 30) ≠ some ("18-30") ∧ age_group (some 30) = some ("31-45") := by
  decide

/-- C1 (amended): age bucketing sends a null age to "Unknown" and each age
in [-1, 100) to exactly one bucket, with boundary values in the UPPER
bucket (30 ↦ "31-45", 45 ↦ "46-60", 60 ↦ "60+"); ages below -1 or at or
above 100 receive no bucket at all. -/
theorem C1_age_bucketing :
    age_group none = some ("Unknown") ∧
    age_group (some 30) = some ("31-45") ∧
    age_group (some 45) = some ("46-60") ∧
    age_group (some 60) = some ("60+") ∧
    age_group (some 61) = some ("60+") ∧
    ∀ a : Int, age_group (some a) =
      (if a < -1 then none
       else if a < 0 then some ("Unknown")
       else if a < 30 then some ("18-30")
       else if a < 45 then some ("31-45")
       else if a < 60 then some ("46-60")
       else if a < 100 then some ("60+")
       else none) := by
  refine ⟨by decide, by decide, by decide, by decide, by decide, ?_⟩
  intro a
  simp only [age_group, Option.getD_some]
  split_ifs <;> first | rfl | omega

/-- C2 counterexample: `src/Sample02.py`'s `customer_age` lambda takes the
plain year difference, so for birth date 2000-06-15 seen on 2024-06-14
(birthday not yet reached) it reports 24, where the claim's
birthday-decremented formula demands 2024 − 2000 − 1 = 23. -/
theorem C2_s02_counterexample :
    customer_age_s02 ⟨2024, 6, 14⟩ (some ⟨2000, 6, 15⟩) = some 24 ∧
    customer_age_s02 ⟨2024, 6, 14⟩ (some ⟨2000, 6, 15⟩) ≠ some 23 := by
  decide

/-- C2 (amended): `calculate_age` (main.py, sample1.py) is null exactly on
a null birth date and otherwise is the year difference decremented by one
exactly when today's (month, day) precedes the birth (month, day) — as the
claim states; but `src/Sample02.py`'s `customer_age` lambda, while also
null exactly on null, is the plain year difference with no birthday
decrement. -/
theorem C2_customer_age :
    (∀ td, calculate_age td none = none) ∧
    (∀ td b, calculate_age td (some b) =
      some (td.year - b.year -
        (if td.month < b.month ∨ (td.month = b.month ∧ td.day < b.day)
         then 1 else 0))) ∧
    calculate_age ⟨2024, 6, 14⟩ (some ⟨2000, 6, 15⟩) = some 23 ∧
    calculate_age ⟨2024, 6, 16⟩ (some ⟨2000, 6, 15⟩) = some 24 ∧
    (∀ td, customer_age_s02 td none = none) ∧
    (∀ td b, customer_age_s02 td (some b) = some (td.year - b.year)) := by
  refine ⟨fun _ => rfl, ?_, by decide, by decide, fun _ => rfl, fun _ _ => rfl⟩
  intro td b
  simp only [calculate_age, tupleLt, Bool.or_eq_true, Bool.and_eq_true,
    decide_eq_true_eq, beq_iff_eq]

/-- C3 counterexample: in `src/sample1.py` a missing order date does not
leave `delivery_delay` null — the `fillna('Unknown')` on line 25 turns the
null into the sentinel string `'Unknown'`. -/
theorem C3_s1_counterexample :
    delivery_delay_s1 none (some ⟨2024, 1, 15⟩) = some (Sum.inr ("Unknown")) ∧
    delivery_delay_s1 none (some ⟨2024, 1, 15⟩) ≠ none := by
  decide

/-- C3 (amended): in `src/main.py` (and Sample02.py) `delivery_delay` is
null whenever either date is null and otherwise the signed day difference
(2024-01-10 to 2024-01-15 gives 5); in `src/sample1.py` the same
computation is post-processed by `fillna('Unknown')`, so a missing date
yields the string sentinel `'Unknown'` instead of null. -/
theorem C3_delivery_delay :
    (∀ d : Option Date, delivery_delay none d = none) ∧
    (∀ o : Option Date, delivery_delay o none = none) ∧
    (∀ o d : Date, delivery_delay (some o) (some d) =
      some (d.toDays - o.toDays)) ∧
    delivery_delay (some ⟨2024, 1, 10⟩) (some ⟨2024, 1, 15⟩) = some 5 ∧
    (∀ d : Option Date, delivery_delay_s1 none d = some (Sum.inr ("Unknown"))) ∧
    (∀ o : Date, delivery_delay_s1 (some o) none = some (Sum.inr ("Unknown"))) := by
  refine ⟨fun d => ?_, fun o => ?_, fun _ _ => rfl, by decide,
    fun d => ?_, fun _ => rfl⟩
  · cases d <;> rfl
  · cases o <;> rfl
  · cases d <;> rfl

/-- C4: the sidebar filter keeps a record iff its state, order month,
color and size each belong to the corresponding accepted-value list
(AND across predicates, membership within one), and an empty
accepted-value list for any predicate empties the result. -/
theorem C4_filter_semantics :
    (∀ df states months colors sizes (r : OrderRecord),
      r ∈ df_filtered df states months colors sizes ↔
        r ∈ df ∧ r.state ∈ states ∧ r.order_year_month ∈ months ∧
          r.color ∈ colors ∧ r.size ∈ sizes) ∧
    (∀ df states months colors sizes,
      states = [] ∨ months = [] ∨ colors = [] ∨ sizes = [] →
      df_filtered df states months colors sizes = []) := by
  have hmem : ∀ df states months colors sizes (r : OrderRecord),
      r ∈ df_filtered df states months colors sizes ↔
        r ∈ df ∧ r.state ∈ states ∧ r.order_year_month ∈ months ∧
          r.color ∈ colors ∧ r.size ∈ sizes := by
    intro df states months colors sizes r
    simp [df_filtered, List.mem_filter, and_assoc]
  refine ⟨hmem, ?_⟩
  intro df states months colors sizes h
  rw [List.eq_nil_iff_forall_not_mem]
  intro r hr
  rw [hmem] at hr
  rcases h with h | h | h | h <;> subst h <;> simp_all

/-- C4 witness: an empty accepted-state list empties the result even though
the record matches every other predicate. -/
theorem C4_filter_witness :
    df_filtered [mkRec ("DE") 1] [] [none] ["Unknown"] ["Unknown"] = [] :=
  C4_filter_semantics.2 _ _ _ _ _ (Or.inl rfl)

/-- C5: `groupby('state').mean() * 100` yields one entry per state present
in the data and none for absent states, an empty input gives an empty
mapping, every emitted group is nonempty (so the mean never divides by
zero), and the concrete scenario — states DE, DE, FR with return flags
1, 0, 1, filtered to state DE — yields 50 for DE and no FR entry. -/
theorem C5_groupby_mean :
    (∀ df k, (∃ v, (k, v) ∈ return_rate_by_state df) ↔
      (∃ r ∈ df, OrderRecord.state r = k)) ∧
    return_rate_by_state [] = [] ∧
    (∀ df k v, (k, v) ∈ return_rate_by_state df →
      0 < (stateGroup df k).length) ∧
    return_rate_by_state
      (df_filtered [mkRec ("DE") 1, mkRec ("DE") 0, mkRec ("FR") 1]
        ["DE"] [none] ["Unknown"] ["Unknown"]) = [("DE", 50)] := by
  have hkey : ∀ df (k : String),
      k ∈ stateKeys df ↔ ∃ r ∈ df, OrderRecord.state r = k := by
    intro df k
    simp [stateKeys, List.mem_dedup, List.mem_map]
  refine ⟨?_, rfl, ?_, ?_⟩
  · intro df k
    constructor
    · rintro ⟨v, hv⟩
      rw [return_rate_by_state, List.mem_map] at hv
      obtain ⟨k2, hk2, heq⟩ := hv
      obtain ⟨h1, _⟩ := Prod.mk.injEq .. ▸ heq
      exact (hkey df k).mp (h1 ▸ hk2)
    · intro h
      exact ⟨_, List.mem_map_of_mem _ ((hkey df k).mpr h)⟩
  · intro df k v hv
    rw [return_rate_by_state, List.mem_map] at hv
    obtain ⟨k2, hk2, heq⟩ := hv
    obtain ⟨h1, _⟩ := Prod.mk.injEq .. ▸ heq
    subst h1
    obtain ⟨r, hr, hrk⟩ := (hkey df k2).mp hk2
    have : r ∈ stateGroup df k2 := by
      rw [stateGroup, List.mem_filter]
      exact ⟨hr, by simp [hrk]⟩
    exact List.length_pos_of_mem this
  · have h1 : df_filtered [mkRec ("DE") 1, mkRec ("DE") 0, mkRec ("FR") 1]
        ["DE"] [none] ["Unknown"] ["Unknown"] =
        [mkRec ("DE") 1, mkRec ("DE") 0] := rfl
    have h2 : stateKeys [mkRec ("DE") 1, mkRec ("DE") 0] = ["DE"] := rfl
    have h3 : stateGroup [mkRec ("DE") 1, mkRec ("DE") 0] "DE" =
        [mkRec ("DE") 1, mkRec ("DE") 0] := rfl
    rw [h1, return_rate_by_state, h2]
    simp only [List.map_cons, List.map_nil, h3]
    norm_num [mkRec]

/-- C5 witness: the nonempty-group guarantee instantiated on one record. -/
theorem C5_groupby_witness :
    0 < (stateGroup [mkRec ("DE") 1] "DE").length :=
  C5_groupby_mean.2.2.1 [mkRec ("DE") 1] "DE" _ (List.Mem.head _)

/-- C6: the loader fails fatally exactly at file/schema level — a missing
or unreadable file, or a header lacking a column the loader indexes — while
a malformed individual cell value (here a bad `orderDate` string) never
aborts the load: the row is kept with that field null. -/
theorem C6_load_error_taxonomy :
    (∀ td, load_data td none = Except.error DataLoadError.fileError) ∧
    (∀ td t, (∃ c ∈ requiredCols, c ∉ t.cols) →
      load_data td (some t) = Except.error DataLoadError.schemaError) ∧
    (∀ td t, (∀ c ∈ requiredCols, c ∈ t.cols) →
      load_data td (some t) = Except.ok (t.rows.map (parseRow td))) ∧
    (∀ td row s, row.orderDate = some s → parseDMY s = none →
      (parseRow td row).orderDate = none) := by
  refine ⟨fun _ => rfl, ?_, ?_, ?_⟩
  · intro td t h
    rw [load_data, if_neg]
    simp only [List.all_eq_true, decide_eq_true_eq]
    push_neg
    exact h
  · intro td t h
    rw [load_data, if_pos]
    simp only [List.all_eq_true, decide_eq_true_eq]
    exact h
  · intro td row s hs hbad
    simp [parseRow, hs, hbad]

/-- C6 witness: a header missing `orderDate` is fatal; a well-formed header
with one row whose `orderDate` cell is the malformed `'99-99-2024'` loads
successfully and leaves that row's order date null. -/
theorem C6_load_witness :
    load_data ⟨2024, 6, 14⟩
      (some ⟨["deliveryDate", "dateOfBirth", "creationDate"], []⟩) =
      Except.error DataLoadError.schemaError ∧
    load_data ⟨2024, 6, 14⟩ (some ⟨requiredCols, [badRow]⟩) =
      Except.ok [parseRow ⟨2024, 6, 14⟩ badRow] ∧
    (parseRow ⟨2024, 6, 14⟩ badRow).orderDate = none :=
  ⟨C6_load_error_taxonomy.2.1 _ _ ⟨"orderDate", by decide, by decide⟩,
   C6_load_error_taxonomy.2.2.1 _ _ (by decide),
   C6_load_error_taxonomy.2.2.2 _ badRow (("99-99-2024").data) rfl (by decide)⟩

/-- C7: in `src/main.py` the loader binds `orderDate`/`creationDate` to the
day-month-year parse and `deliveryDate` to the year-month-day parse (a
non-matching string coercing to null), so the year-month-day string
`'2024-01-15'` loads as the date 2024-01-15; but `src/sample1.py` parses
the raw `deliveryDate` strings as day-month-year first, so there the same
cell coerces to null — the code contradicts its own `%Y-%m-%d` branch. -/
theorem C7_deliveryDate_formats :
    (∀ td (row : RawRow),
      (parseRow td row).deliveryDate = row.deliveryDate.bind parseYMD) ∧
    (∀ td (row : RawRow),
      (parseRow td row).orderDate = row.orderDate.bind parseDMY) ∧
    (∀ td (row : RawRow),
      (parseRow td row).creationDate = row.creationDate.bind parseDMY) ∧
    parseYMD ("2024-01-15").data = some ⟨2024, 1, 15⟩ ∧
    parse_deliveryDate_s1 (some ("2024-01-15").data) = none := by
  exact ⟨fun _ _ => rfl, fun _ _ => rfl, fun _ _ => rfl, by decide, by decide⟩

/-- C8: the loader is a pure function — two invocations on the same file
with the same current date return identical results, in particular
identical derived fields (`order_year_month`, `delivery_delay`,
`customer_age`) for every record. -/
theorem C8_load_deterministic :
    ∀ td file,
      load_data td file = load_data td file ∧
      Except.map (List.map derivedOf) (load_data td file) =
        Except.map (List.map derivedOf) (load_data td file) :=
  fun _ _ => ⟨rfl, rfl⟩

/-- C9: an age of 100 or more falls outside the last cut interval
[60, 100), so `pd.cut` assigns it no label at all — not "60+", not
"Unknown" — and `value_counts` (which drops unlabelled rows) counts such a
record under no age bucket. -/
theorem C9_age_100_unbinned :
    (∀ a : Int, 100 ≤ a → age_group (some a) = none) ∧
    age_group (some 100) ≠ some ("60+") ∧
    age_group (some 100) ≠ some ("Unknown") ∧
    (∀ df r label, (∃ a, OrderRecord.customer_age r = some a ∧ 100 ≤ a) →
      age_distribution (r :: df) label = age_distribution df label) := by
  have h100 : ∀ a : Int, 100 ≤ a → age_group (some a) = none := by
    intro a h
    simp only [age_group, Option.getD_some]
    rw [if_neg, if_neg, if_neg, if_neg, if_neg] <;> omega
  refine ⟨h100, by decide, by decide, ?_⟩
  rintro df r label ⟨a, ha, h1⟩
  have hnone : age_group r.customer_age = none := by
    rw [ha]
    exact h100 a h1
  simp [age_distribution, List.filter_cons, hnone]

/-- C9 witness: a 150-year-old record is unbinned and adds nothing to the
"60+" count. -/
theorem C9_age_witness :
    age_group (some 150) = none ∧
    age_distribution [mkRecAge (some 150)] "60+" =
      age_distribution [] "60+" :=
  ⟨C9_age_100_unbinned.1 150 (by decide),
   C9_age_100_unbinned.2.2.2 [] (mkRecAge (some 150)) "60+"
     ⟨150, rfl, by decide⟩⟩

/-- C10: the delivery-performance aggregation is computed from the rows
with strictly positive `delivery_delay` only — a record with delay zero,
a negative delay, or no delay leaves the result unchanged, and
pre-restricting the input to positive delays is a no-op. -/
theorem C10_positive_delay_only :
    (∀ df (r : OrderRecord),
      (∀ n : Int, OrderRecord.delivery_delay r = some n → n ≤ 0) →
      delivery_performance (r :: df) = delivery_performance df) ∧
    (∀ df, delivery_performance (df.filter posDelay) =
      delivery_performance df) := by
  constructor
  · intro df r h
    have hp : posDelay r = false := by
      cases hd : r.delivery_delay with
      | none => simp [posDelay, hd]
      | some n =>
          have := h n hd
          simp [posDelay, hd]
          omega
    simp [delivery_performance, List.filter_cons, hp]
  · intro df
    simp only [delivery_performance, List.filter_filter, Bool.and_self]

/-- C10 witness: a same-day delivery (delay 0) contributes nothing. -/
theorem C10_delay_witness :
    delivery_performance [mkRecDelay (some 0)] = delivery_performance [] :=
  C10_positive_delay_only.1 [] (mkRecDelay (some 0))
    (fun n h => by injection h with h2; omega)
